import Mathlib

/-!
Shallow embedding of the deam_app frontend core: the token lifecycle
(authService: login / logout / checkAuth), the shared axios interceptors
(request-token attachment, response-error normalization and the 401
redirect), the LogsViewer fetch workflow, and the Header logout handler.

Browser-global effects are made explicit: localStorage's single
auth_token key is an Option String threaded through each operation, and
window.location navigation is a location field on the browser state.
JavaScript string truthiness (the empty string is falsy) is modelled by
explicit comparisons with the empty string. The external jwt-decode
library is modelled as a parameter of type String -> Option DecodedToken:
some claims on success, none when the library would throw.
-/

namespace DeamApp

/-- Claims carried in a decoded JWT (authService, interface DecodedToken). -/
structure DecodedToken where
  sub : String
  username : String
  email : String
  role : String
  exp : Int
deriving Repr, DecidableEq

/-- User record produced by the auth service (authService, interface User). -/
structure User where
  id : String
  username : String
  email : String
  role : String
deriving Repr, DecidableEq

/-- Result of checkAuth: authentication flag plus optional user. -/
structure SessionState where
  isAuthenticated : Bool
  user : Option User
deriving Repr, DecidableEq

/-- The single durable key auth_token in localStorage: absent or a string. -/
abbrev TokenStore := Option String

/-- Browser-global state visible to the interceptors and logout handlers:
the stored token and the current navigation target of window.location. -/
structure BrowserState where
  auth_token : Option String
  location : Option String
deriving Repr, DecidableEq

/-- Builds the User record from decoded claims, as done inline in both
login and checkAuth (id := decoded.sub and so on). -/
def mkUser (d : DecodedToken) : User :=
  { id := d.sub, username := d.username, email := d.email, role := d.role }

/-- checkAuth from authService. Reads the token; a missing or empty
(falsy) token yields unauthenticated without touching storage; a token
that fails to decode, or whose exp is strictly below the current time,
is removed from storage and yields unauthenticated; otherwise the
decoded identity is returned as authenticated. The function is total:
the jwt-decode failure is absorbed by the try/catch, never re-thrown. -/
def checkAuth (decode : String → Option DecodedToken) (now : Int)
    (store : TokenStore) : SessionState × TokenStore :=
  match store with
  | none => ({ isAuthenticated := false, user := none }, none)
  | some token =>
      if token = "" then
        ({ isAuthenticated := false, user := none }, some token)
      else
        match decode token with
        | none => ({ isAuthenticated := false, user := none }, none)
        | some d =>
            if d.exp < now then
              ({ isAuthenticated := false, user := none }, none)
            else
              ({ isAuthenticated := true, user := some (mkUser d) }, some token)

/-- login from authService. The POST to /api/auth/token is modelled by
its outcome: some access_token when the server accepted the
credentials, none on rejection or network failure. On success the token
is saved to localStorage before it is decoded, so a decode failure
still leaves the token stored; every caught failure is re-thrown as the
single invalid-credentials message. -/
def login (decode : String → Option DecodedToken) (serverToken : Option String)
    (store : TokenStore) : Except String User × TokenStore :=
  match serverToken with
  | none => (Except.error "Неверное имя пользователя или пароль", store)
  | some access_token =>
      match decode access_token with
      | some d => (Except.ok (mkUser d), some access_token)
      | none => (Except.error "Неверное имя пользователя или пароль", some access_token)

/-- logout from authService: removes the token, then navigates to /login. -/
def logout (st : BrowserState) : BrowserState :=
  { st with auth_token := none, location := some "/login" }

/-- handleLogout from the Header component: logs to the console and
navigates to /login; the stored token is never touched. -/
def handleLogout (st : BrowserState) : BrowserState :=
  { st with location := some "/login" }

/-- JavaScript string-or-default (s || d) where the empty string is falsy. -/
def stringOr (s : Option String) (d : String) : String :=
  match s with
  | none => d
  | some v => if v = "" then d else v

/-- Body of an HTTP error response; detail mirrors response.data?.detail. -/
structure ResponseBody where
  detail : Option String
deriving Repr, DecidableEq

/-- An HTTP response as seen by the axios response interceptor. -/
structure HttpResponse where
  status : Nat
  data : Option ResponseBody
deriving Repr, DecidableEq

/-- The axios error object: response is none for pure transport
failures where no response was received; message is the transport-level
error message. -/
structure AxiosError where
  response : Option HttpResponse
  message : Option String
deriving Repr, DecidableEq

/-- The normalized rejection record built by the response interceptor:
status, human-readable message, and the raw response body. -/
structure NormalizedError where
  status : Nat
  message : String
  data : Option ResponseBody
deriving Repr, DecidableEq

/-- The axios response error interceptor. When a response was
received: a 401 status assigns /login to window.location, and every
received response is rejected as a record of its status, a message
(response.data?.detail, defaulting when absent or empty), and its raw
body. When no response was received the rejection carries status 0 and
the error message (defaulting to a generic network-error text). -/
def responseErrorInterceptor (st : BrowserState) (e : AxiosError) :
    BrowserState × NormalizedError :=
  match e.response with
  | some r =>
      ((if r.status = 401 then { st with location := some "/login" } else st),
       { status := r.status,
         message := stringOr (r.data.bind ResponseBody.detail)
           "Произошла ошибка при выполнении запроса",
         data := r.data })
  | none =>
      (st, { status := 0, message := stringOr e.message "Сетевая ошибка", data := none })

/-- Outgoing request headers: the Authorization slot that the
interceptor may assign, plus all other headers, never touched by it. -/
structure RequestHeaders where
  authorization : Option String
  rest : List (String × String)
deriving Repr, DecidableEq

/-- An outgoing axios request configuration. -/
structure RequestConfig where
  headers : RequestHeaders
deriving Repr, DecidableEq

/-- The axios request interceptor: reads auth_token from localStorage
and, when it is truthy (present and non-empty), assigns
"Bearer " followed by the token to the Authorization header; otherwise
the configuration passes through unchanged. -/
def requestInterceptor (store : TokenStore) (config : RequestConfig) : RequestConfig :=
  match store with
  | none => config
  | some token =>
      if token = "" then config
      else { config with headers :=
        { config.headers with authorization := some ("Bearer " ++ token) } }

/-- Parsed body of GET /api/logs (logsService, interface LogsResponse). -/
structure LogsResponse where
  logs : List String
  total_lines : Int
  returned_lines : Int
deriving Repr, DecidableEq

/-- LogsViewer component state relevant to the log window. -/
structure LogsViewerState where
  logs : List String
  totalLines : Int
  isLoading : Bool
deriving Repr, DecidableEq

/-- getLogs from logsService: awaits the GET and returns response.data;
the axios layer either resolves with a parsed LogsResponse or rejects
with the interceptor-normalized error, which getLogs propagates as is. -/
def getLogs (result : Except NormalizedError LogsResponse) :
    Except NormalizedError LogsResponse :=
  result

/-- fetchLogs from the LogsViewer component: on a resolved getLogs it
replaces logs and totalLines wholesale from the response; on a rejected
getLogs it only logs to the console, leaving both untouched; in either
case the finally block ends the loading flag. -/
def fetchLogs (result : Except NormalizedError LogsResponse)
    (st : LogsViewerState) : LogsViewerState :=
  match getLogs result with
  | Except.ok r => { st with logs := r.logs, totalLines := r.total_lines, isLoading := false }
  | Except.error _ => { st with isLoading := false }

/-- Sample decoded claims used by concrete instantiations below. -/
def sampleClaims : DecodedToken :=
  { sub := "42", username := "admin", email := "a@b.c", role := "admin", exp := 100 }

/-- A concrete codec: the string jwt decodes to sampleClaims, every
other string (the empty string included) fails to decode, matching the
behaviour of the real jwt-decode library on non-JWT input. -/
def decodeSample : String → Option DecodedToken :=
  fun s => if s = "jwt" then some sampleClaims else none

/-- A codec on which every string fails to decode. -/
def decodeFail : String → Option DecodedToken :=
  fun _ => none

/-- C1: counterexample. A 401 response with a stored token navigates to
/login but leaves the token in storage: the claimed clearing of the
Token Store does not happen. -/
theorem response401_counterexample :
    responseErrorInterceptor { auth_token := some "tok", location := none }
        { response := some { status := 401, data := none }, message := none }
      = ({ auth_token := some "tok", location := some "/login" },
         { status := 401, message := "Произошла ошибка при выполнении запроса", data := none }) := by
  rfl

/-- C1 (amended): every 401 response, from any endpoint and whatever its
body, triggers the navigation side effect to /login, while the stored
token is left unchanged — the interceptor does not clear the Token Store. -/
theorem response401_navigates_keeps_token (st : BrowserState)
    (body : Option ResponseBody) (msg : Option String) :
    (responseErrorInterceptor st
        { response := some { status := 401, data := body }, message := msg }).1.location
      = some "/login" ∧
    (responseErrorInterceptor st
        { response := some { status := 401, data := body }, message := msg }).1.auth_token
      = st.auth_token := by
  constructor <;> simp [responseErrorInterceptor]

/-- C2: counterexample. A token whose decoded exp equals the current
time (exp less than or equal to now, as the claim puts it) is still
accepted: checkAuth returns authenticated and leaves the store intact,
because the code tests exp strictly below now. -/
theorem checkAuth_boundary_counterexample :
    checkAuth decodeSample 100 (some "jwt")
      = ({ isAuthenticated := true, user := some (mkUser sampleClaims) }, some "jwt") := by
  rfl

/-- C2 (amended): for every stored token that decodes to claims whose
exp is strictly less than the current time, checkAuth returns
unauthenticated and clears the store (the codec is assumed to reject
the empty string, as the real JWT decoder does). -/
theorem checkAuth_expired_clears (decode : String → Option DecodedToken) (now : Int)
    (t : String) (d : DecodedToken)
    (h0 : decode "" = none) (hdec : decode t = some d) (hexp : d.exp < now) :
    checkAuth decode now (some t) = ({ isAuthenticated := false, user := none }, none) := by
  have ht : ¬ t = "" := by
    intro h
    rw [h, h0] at hdec
    exact Option.noConfusion hdec
  simp [checkAuth, ht, hdec, hexp]

/-- C2 witness: a concrete expired token is rejected and cleared. -/
theorem checkAuth_expired_clears_witness :
    checkAuth decodeSample 101 (some "jwt")
      = ({ isAuthenticated := false, user := none }, none) :=
  checkAuth_expired_clears decodeSample 101 "jwt" sampleClaims rfl rfl (by decide)

/-- C3: counterexample. The empty string is a stored token that fails
to decode (the real JWT decoder throws on it), yet checkAuth returns
unauthenticated without clearing the store: the falsy-token early
return fires before the decoder is consulted and performs no removal. -/
theorem checkAuth_empty_token_counterexample :
    checkAuth decodeFail 0 (some "")
      = ({ isAuthenticated := false, user := none }, some "") := by
  rfl

/-- C3 (amended): every non-empty stored token that fails to decode
yields unauthenticated and clears the store; the empty stored token
also yields unauthenticated but is left in storage. In both cases the
failure is absorbed locally: checkAuth is a total function returning a
SessionState, it never propagates an error. -/
theorem checkAuth_decode_failure_amended (decode : String → Option DecodedToken)
    (now : Int) (t : String) (ht : t ≠ "") (hdec : decode t = none) :
    checkAuth decode now (some t) = ({ isAuthenticated := false, user := none }, none) ∧
    checkAuth decode now (some "") = ({ isAuthenticated := false, user := none }, some "") := by
  constructor
  · simp [checkAuth, ht, hdec]
  · rfl

/-- C3 witness: a concrete undecodable token is rejected and cleared. -/
theorem checkAuth_decode_failure_amended_witness :
    checkAuth decodeFail 0 (some "bad")
        = ({ isAuthenticated := false, user := none }, none) ∧
    checkAuth decodeFail 0 (some "")
        = ({ isAuthenticated := false, user := none }, some "") :=
  checkAuth_decode_failure_amended decodeFail 0 "bad" (by decide) rfl

/-- C4: when the credential submission fails (network failure or
rejected credentials, both modelled as the POST yielding no token),
login returns the single invalid-credentials error and the Token Store
is exactly what it was before the call. -/
theorem login_failure_atomic (decode : String → Option DecodedToken) (store : TokenStore) :
    login decode none store
      = (Except.error "Неверное имя пользователя или пароль", store) := by
  rfl

/-- C5: after a successful login that stored the returned access token,
checkAuth at any time at which the token is not yet expired returns
authenticated with exactly the identity decoded from that token (the
codec is assumed to reject the empty string, as the real JWT decoder
does). -/
theorem login_then_checkAuth (decode : String → Option DecodedToken)
    (tok : String) (d : DecodedToken) (now : Int) (store : TokenStore)
    (h0 : decode "" = none) (hdec : decode tok = some d) (hexp : ¬ d.exp < now) :
    (login decode (some tok) store).1 = Except.ok (mkUser d) ∧
    checkAuth decode now (login decode (some tok) store).2
      = ({ isAuthenticated := true, user := some (mkUser d) }, some tok) := by
  have ht : ¬ tok = "" := by
    intro h
    rw [h, h0] at hdec
    exact Option.noConfusion hdec
  constructor
  · simp [login, hdec]
  · simp [login, checkAuth, hdec, ht, hexp]

/-- C5 witness: a concrete login followed by checkAuth before expiry. -/
theorem login_then_checkAuth_witness :
    (login decodeSample (some "jwt") none).1 = Except.ok (mkUser sampleClaims) ∧
    checkAuth decodeSample 50 (login decodeSample (some "jwt") none).2
      = ({ isAuthenticated := true, user := some (mkUser sampleClaims) }, some "jwt") :=
  login_then_checkAuth decodeSample "jwt" sampleClaims 50 none rfl rfl (by decide)

/-- C6: a resolved fetch replaces the displayed log window wholesale —
lines become the response logs and the total count becomes the response
total_lines — while a rejected fetch leaves both exactly as they were. -/
theorem fetchLogs_replaces_or_preserves (st : LogsViewerState)
    (r : LogsResponse) (e : NormalizedError) :
    ((fetchLogs (Except.ok r) st).logs = r.logs ∧
     (fetchLogs (Except.ok r) st).totalLines = r.total_lines) ∧
    ((fetchLogs (Except.error e) st).logs = st.logs ∧
     (fetchLogs (Except.error e) st).totalLines = st.totalLines) := by
  refine ⟨⟨rfl, rfl⟩, rfl, rfl⟩

/-- C7: counterexample. The empty string is a token present in the
Token Store, yet the request interceptor leaves the configuration
untouched — no Authorization header is attached — because the
JavaScript truthiness test treats the empty string as absent. -/
theorem requestInterceptor_empty_token_counterexample :
    requestInterceptor (some "")
        { headers := { authorization := none, rest := [("Accept", "*")] } }
      = { headers := { authorization := none, rest := [("Accept", "*")] } } := by
  rfl

/-- C7 (amended): a present non-empty token is attached as
"Bearer " followed by the token in the Authorization header, all other
headers untouched; when no token is stored, or the stored token is the
empty string, the request passes through with its headers unmodified,
and in every case the interceptor is a total function — no error. -/
theorem requestInterceptor_amended (config : RequestConfig) :
    (∀ t : String, t ≠ "" →
       requestInterceptor (some t) config
         = { config with headers :=
             { config.headers with authorization := some ("Bearer " ++ t) } }) ∧
    requestInterceptor none config = config ∧
    requestInterceptor (some "") config = config := by
  refine ⟨?_, rfl, rfl⟩
  intro t ht
  simp [requestInterceptor, ht]

/-- C7 witness: a concrete non-empty token gets its Bearer header. -/
theorem requestInterceptor_amended_witness :
    requestInterceptor (some "tk")
        { headers := { authorization := none, rest := [] } }
      = { headers := { authorization := some ("Bearer " ++ "tk"), rest := [] } } :=
  (requestInterceptor_amended
    { headers := { authorization := none, rest := [] } }).1 "tk" (by decide)

/-- Helper: the JavaScript string-or-default never yields the empty
string when its default is non-empty. -/
theorem stringOr_ne_empty (s : Option String) (d : String) (hd : d ≠ "") :
    stringOr s d ≠ "" := by
  cases s with
  | none => exact hd
  | some v =>
      by_cases hv : v = ""
      · simpa [stringOr, hv] using hd
      · simp [stringOr, hv]

/-- C8: every received non-2xx response is rejected as a normalized
record carrying exactly the response status, a non-empty message and
the raw response body; every transport failure with no response is
rejected with status 0 and a non-empty message. -/
theorem response_error_normalized (st : BrowserState) (r : HttpResponse)
    (m : Option String) :
    ((responseErrorInterceptor st { response := some r, message := m }).2.status
        = r.status ∧
     (responseErrorInterceptor st { response := some r, message := m }).2.data
        = r.data ∧
     (responseErrorInterceptor st { response := some r, message := m }).2.message ≠ "") ∧
    ((responseErrorInterceptor st { response := none, message := m }).2.status = 0 ∧
     (responseErrorInterceptor st { response := none, message := m }).2.message ≠ "") := by
  refine ⟨⟨rfl, rfl, ?_⟩, rfl, ?_⟩
  · simpa [responseErrorInterceptor] using
      stringOr_ne_empty (r.data.bind ResponseBody.detail)
        "Произошла ошибка при выполнении запроса" (by decide)
  · simpa [responseErrorInterceptor] using
      stringOr_ne_empty m "Сетевая ошибка" (by decide)

/-- C9: checkAuth is idempotent: run on the store a first call leaves
behind, a second call at the same time with the same codec returns the
same SessionState and leaves the store exactly as the first call did —
in particular it is a no-op on an already-empty store. -/
theorem checkAuth_idempotent (decode : String → Option DecodedToken) (now : Int)
    (store : TokenStore) :
    (checkAuth decode now (checkAuth decode now store).2).1
      = (checkAuth decode now store).1 ∧
    (checkAuth decode now (checkAuth decode now store).2).2
      = (checkAuth decode now store).2 := by
  cases store with
  | none => exact ⟨rfl, rfl⟩
  | some t =>
      by_cases ht : t = ""
      · subst ht
        exact ⟨rfl, rfl⟩
      · cases hd : decode t with
        | none => simp [checkAuth, ht, hd]
        | some d =>
            by_cases hexp : d.exp < now
            · simp [checkAuth, ht, hd, hexp]
            · simp [checkAuth, ht, hd, hexp]

/-- C10: the Header component logout handler only navigates to /login,
leaving whatever token is stored still present, whereas the auth
service logout removes the token and then navigates to /login. -/
theorem header_logout_keeps_token (st : BrowserState) :
    (handleLogout st).auth_token = st.auth_token ∧
    (handleLogout st).location = some "/login" ∧
    (logout st).auth_token = none ∧
    (logout st).location = some "/login" :=
  ⟨rfl, rfl, rfl, rfl⟩

end DeamApp
